import Mathlib

/-!
Verification of the Fastly power-tools CLI (`main.py`) and its structured
logger (`logger.py`): a shallow embedding of both modules and proofs of the
specified properties.  File contents are modelled as `String`/`List Char`,
the file system as a partial map from names to contents, Python call stacks
as explicit lists of frames, and fallible operations as `Except`.
-/

set_option autoImplicit false

namespace FastlyTools

/-! ### Python string primitives

`str.split(sep)` for a one-character separator: every occurrence separates,
empty pieces are kept, and the result is never empty. -/

def splitOnChar (sep : Char) : List Char → List (List Char)
  | [] => [[]]
  | c :: cs =>
    let r := splitOnChar sep cs
    if c = sep then [] :: r
    else
      match r with
      | [] => [[c]]
      | h :: t => (c :: h) :: t

/-- Whether `needle` occurs at the start of the second list
(auxiliary for Python's substring test). -/
def leadsWith : List Char → List Char → Bool
  | [], _ => true
  | _ :: _, [] => false
  | c :: cs, d :: ds => c == d && leadsWith cs ds

/-- Python's `needle in hay` substring containment test. -/
def containsSub (needle : List Char) : List Char → Bool
  | [] => needle.isEmpty
  | d :: hs => leadsWith needle (d :: hs) || containsSub needle hs

/-! ### logger.py: global constants (lines 9-11) -/

def LOGFILE : String := "log.txt"

def END_SCRIPT : String := "\n-------------\\  End of Script  /--------------\n\n"

def START_SCRIPT : String := "-------------/ Start of Script \\--------------"

/-! ### Call stacks

`traceback.extract_stack()` yields the live frames, outermost first; each
frame carries the source file path and the line currently executing in that
frame.  Only these two fields of a `FrameSummary` are consumed by the code. -/

structure Frame where
  filename : String
  lineNo : Nat
  deriving DecidableEq, Repr

instance : Inhabited Frame := ⟨⟨"", 0⟩⟩

/-- `traceback.extract_stack()` evaluated inside a function whose own frame is
`own`, when the caller frames (outermost first, immediate caller last) are
`callers`. -/
def extract_stack (callers : List Frame) (own : Frame) : List Frame :=
  callers ++ [own]

/-- Python `stack[-2]`: the second-to-last frame. -/
def penultimate (stack : List Frame) : Frame :=
  (stack.get? (stack.length - 2)).getD default

/-- logger.py source path as recorded in its own stack frames. -/
def loggerPath : String := ".github/workflows/logger.py"

/-- main.py source path as recorded in its stack frames. -/
def mainPath : String := ".github/workflows/main.py"

/-- `filename.split("/")[-1]` then `filename.split("\\")[-1]`
(logger.py lines 34-35 and the identical pairs elsewhere). -/
def strip_path (filename : String) : String :=
  let f1 : List Char := (splitOnChar '/' filename.data).getLastD []
  ⟨(splitOnChar '\\' f1).getLastD []⟩

/-! ### logger.py: `write_to_logfile` (lines 30-45)

`d` and `t` stand for the ambient values of `now_date()` and `now_time()`;
`stack` is the result of the `traceback.extract_stack()` call at line 32. -/

/-- The local variable `log` computed by lines 33-42 of `write_to_logfile`:
attribution from `stack[-2]`, then the three-branch format.  Note the first
branch already captures every non-empty string, the `START_SCRIPT` sentinel
included. -/
def write_to_logfile_line (d t : String) (stack : List Frame) (log_text : String) : String :=
  let fr := penultimate stack
  let fname := strip_path fr.filename
  if log_text ≠ "" then
    "[" ++ d ++ " " ++ t ++ ", " ++ fname ++ ": " ++ toString fr.lineNo ++ "] " ++ log_text ++ " "
  else if log_text = START_SCRIPT then
    log_text
  else
    ""

/-- Effect of `write_to_logfile(log_text)` on the log-file content:
`logfile.write("\n" + log)` in append mode (line 43), invoked with caller
stack `callers`; the function's own frame sits at line 32 when the stack is
captured. -/
def write_to_logfile (d t : String) (callers : List Frame) (content log_text : String) : String :=
  content ++ "\n" ++ write_to_logfile_line d t (extract_stack callers ⟨loggerPath, 32⟩) log_text

/-! ### logger.py: `error_handler` (lines 48-56) -/

/-- `error_handler(error, line_num)` invoked with caller stack `callers` and
log-file content `content`: computes its own attribution from `stack[-2]` of
the stack captured at line 49, formats `e`, writes `e` through
`write_to_logfile` (called from line 55), and returns `e`.  Result: the new
log content and the returned string. -/
def error_handler (d t : String) (callers : List Frame) (content : String)
    (error : String) (line_num : Nat) : String × String :=
  let stack := extract_stack callers ⟨loggerPath, 49⟩
  let fr := penultimate stack
  let fname := strip_path fr.filename
  let e := "  Error [File: " ++ fname ++ " Line: " ++ toString line_num ++ "] - " ++ error
  (write_to_logfile d t (callers ++ [⟨loggerPath, 55⟩]) content e, e)

/-! ### logger.py: `last_line_of_file` (lines 94-103)

The file is opened in binary mode; `seek(-2, SEEK_END)` then a backward scan
(`read(1)`; `seek(-2, SEEK_CUR)`) looks for the closest newline at an index
`≤ length - 2`; an `OSError` (seek before the start, which also covers files
shorter than two bytes) falls back to position 0; finally `readline()`. -/

/-- `f.readline()` from the current position: characters up to and including
the next newline, or to the end of the file. -/
def takeLine : List Char → List Char
  | [] => []
  | c :: cs => if c = '\n' then [c] else c :: takeLine cs

/-- The backward scan: largest index `q ≤ p` with `s[q] = '\n'`, if any. -/
def findNewlineBack (s : List Char) : Nat → Option Nat
  | 0 => if s.get? 0 = some '\n' then some 0 else none
  | p + 1 => if s.get? (p + 1) = some '\n' then some (p + 1) else findNewlineBack s (p)

/-- `last_line_of_file` on a file content `s`. -/
def last_line_of_file (s : List Char) : List Char :=
  if s.length < 2 then takeLine s
  else
    match findNewlineBack s (s.length - 2) with
    | some p => takeLine (s.drop (p + 1))
    | none => takeLine s

/-- `last_line_of_file` at the `String` level. -/
def last_line_of_file_str (s : String) : String :=
  ⟨last_line_of_file s.data⟩

/-! ### File system

A partial map from file names to contents; `none` means the file does not
exist. -/

def FS : Type := String → Option String

def FS.update (fs : FS) (name content : String) : FS :=
  fun m => if m = name then some content else fs m

/-- `open(filename, "rb")` + tail read: raises `FileNotFoundError` when the
file does not exist. -/
def last_line_of_file_fs (fs : FS) (filename : String) : Except Unit String :=
  match fs filename with
  | none => Except.error ()
  | some content => Except.ok (last_line_of_file_str content)

/-- `write_to_logfile` as a file-system action: `open(LOGFILE, "a")` creates
the log file when absent. -/
def write_to_logfile_fs (d t : String) (callers : List Frame) (fs : FS) (log_text : String) : FS :=
  FS.update fs LOGFILE (write_to_logfile d t callers ((fs LOGFILE).getD "") log_text)

/-! ### logger.py: `write_to_file` (lines 81-91) -/

/-- `writer.writerow("UnicodeEncodeError")` hands `csv.writer` the string as
an iterable, i.e. its characters as one-character fields. -/
def placeholderRow : List String :=
  "UnicodeEncodeError".data.map (fun c => String.singleton c)

/-- Model of the `csv.writer.writerow` collaborator for an encodability
predicate `enc` describing the target encoding: the serialized record, or a
`UnicodeEncodeError` when some character is not encodable.  (CSV quoting is
a non-goal of the design; fields are joined by commas and terminated by the
CSV line terminator.) -/
def joinRow : List String → String
  | [] => ""
  | [x] => x
  | x :: xs => x ++ "," ++ joinRow xs

def csvSerialize (enc : Char → Bool) (entry : List String) : Except Unit String :=
  let line := joinRow entry ++ "\r\n"
  if line.data.all enc then Except.ok line else Except.error ()

/-- The notice `log_text` built by `write_to_file` (logger.py line 82):
`f'Writing Data to: "{filename}"'`. -/
def notice (filename : String) : String :=
  "Writing Data to: \"" ++ filename ++ "\""

/-- The log line produced when `write_to_file` (invoked with caller stack
`callers`) emits its notice through `write_to_logfile`. -/
def noticeLine (d t : String) (callers : List Frame) (filename : String) : String :=
  write_to_logfile_line d t (extract_stack callers ⟨loggerPath, 32⟩) (notice filename)

/-- `write_to_file(filename, entry)` with caller stack `callers` and a
serializer `ser` for the `csv.writer` collaborator.  It builds the notice,
reads the tail line of the log file (this raises when the log file does not
exist), emits the notice through `write_to_logfile` unless the notice is
contained in that tail line, opens `filename` in append mode (creating it),
and appends the serialized row — substituting the placeholder row on a
`UnicodeEncodeError`.  Returns the updated file system and the outcome. -/
def write_to_file (ser : List String → Except Unit String) (d t : String)
    (callers : List Frame) (fs : FS) (filename : String) (entry : List String) :
    FS × Except Unit Unit :=
  let log_text := notice filename
  match last_line_of_file_fs fs LOGFILE with
  | Except.error e => (fs, Except.error e)
  | Except.ok lastLine =>
    let fs1 := if containsSub log_text.data lastLine.data then fs
               else write_to_logfile_fs d t callers fs log_text
    let fs2 := FS.update fs1 filename ((fs1 filename).getD "")
    match ser entry with
    | Except.ok row => (FS.update fs2 filename (((fs2 filename).getD "") ++ row), Except.ok ())
    | Except.error _ =>
      match ser placeholderRow with
      | Except.ok row => (FS.update fs2 filename (((fs2 filename).getD "") ++ row), Except.ok ())
      | Except.error e => (fs2, Except.error e)

/-! ### main.py: `parse_key_value_pairs` (lines 31-35)

`dict(pair.split(":") for pair in pairs_str.split(","))`: every
comma-separated piece must split on `":"` into exactly two parts, otherwise
`dict` raises and the handler converts it into an `ArgumentTypeError`. -/

def parse_key_value_pairs (pairs_str : String) : Except String (List (String × String)) :=
  let pairs := (splitOnChar ',' pairs_str.data).map (fun pair => splitOnChar ':' pair)
  if pairs.all (fun l => l.length == 2) then
    Except.ok (pairs.map (fun l => (⟨l.getD 0 []⟩, ⟨l.getD 1 []⟩)))
  else
    Except.error ("Invalid key:value pair format: " ++ pairs_str)

/-! ### main.py: `main` (lines 43-71)

A handler capability: its declared parameter names (`inspect.signature`)
and its behaviour on a bound argument set (`True`ish or `False`ish result).
The invocation request is `vars(args)`: names mapped to a present value or
to `None`. -/

structure Handler (α : Type) where
  params : List String
  call : List (String × α) → Bool

/-- Lines 49-55: build `operation_arguments` by iterating the declared
parameters and keeping exactly those that are present in `vars(args)` with a
non-`None` value. -/
def operation_arguments (α : Type) (params : List String)
    (request : List (String × Option α)) : List (String × α) :=
  params.filterMap fun p =>
    match request.lookup p with
    | some (some v) => some (p, v)
    | _ => none

/-- Observable outcome of one `main` run: the handler invocations performed
(name and bound arguments), the log-file content, and normal return versus a
raised `Exception` message. -/
structure DispatchResult (α : Type) where
  calls : List (String × List (String × α))
  log : String
  outcome : Except String Unit
  deriving Repr

/-- `main` after argument parsing (lines 43-71): look the operation up in
`OPERATIONS` (`ops`); if found, bind the arguments, invoke the handler, and
on a falsy result log `"Operation, <name>, has failed."` via `error_handler`
(called from line 62, where `line_number()` also yields 62) and raise;
if absent, log `"Operation, '<name>', does not exist or is unavailable."`
via `error_handler` (called from line 70) and raise.  `callers0` are the
frames below `main` (the module frame), `logContent` the initial log file. -/
def main (α : Type) (d t : String) (callers0 : List Frame)
    (ops : List (String × Handler α)) (operation : String)
    (request : List (String × Option α)) (logContent : String) : DispatchResult α :=
  match ops.lookup operation with
  | some op =>
    let args := operation_arguments α op.params request
    if op.call args then
      ⟨[(operation, args)], logContent, Except.ok ()⟩
    else
      let error_message := "Operation, " ++ operation ++ ", has failed."
      let lg := (error_handler d t (callers0 ++ [⟨mainPath, 62⟩]) logContent error_message 62).1
      ⟨[(operation, args)], lg, Except.error error_message⟩
  | none =>
    let error_message := "Operation, '" ++ operation ++ "', does not exist or is unavailable."
    let lg := (error_handler d t (callers0 ++ [⟨mainPath, 70⟩]) logContent error_message 70).1
    ⟨[], lg, Except.error error_message⟩

/-! ## Helper lemmas on the tail-line scan -/

theorem takeLine_of_not_mem : ∀ {s : List Char}, '\n' ∉ s → takeLine s = s
  | [], _ => rfl
  | c :: cs, h => by
    have hc : c ≠ '\n' := fun he => h (he ▸ List.mem_cons_self c cs)
    have hcs : '\n' ∉ cs := fun hm => h (List.mem_cons_of_mem c hm)
    simp only [takeLine]
    rw [if_neg hc, takeLine_of_not_mem hcs]

theorem takeLine_append_newline {b : List Char} (hb : '\n' ∉ b) (r : List Char) :
    takeLine (b ++ '\n' :: r) = b ++ ['\n'] := by
  induction b with
  | nil =>
    simp [takeLine]
  | cons c cs ih =>
    have hc : c ≠ '\n' := fun he => hb (he ▸ List.mem_cons_self c cs)
    have hcs : '\n' ∉ cs := fun hm => hb (List.mem_cons_of_mem c hm)
    simp only [List.cons_append, takeLine, List.append_eq]
    rw [if_neg hc, ih hcs]

theorem findNewlineBack_eq_some {s : List Char} :
    ∀ {p q : Nat}, q ≤ p → s.get? q = some '\n' →
      (∀ r, q < r → r ≤ p → s.get? r ≠ some '\n') →
      findNewlineBack s p = some q := by
  intro p
  induction p with
  | zero =>
    intro q hq hnl _
    interval_cases q
    simp only [findNewlineBack]
    rw [if_pos hnl]
  | succ p ih =>
    intro q hq hnl habove
    simp only [findNewlineBack]
    by_cases htop : s.get? (p + 1) = some '\n'
    · have hqe : q = p + 1 := by
        by_contra hne
        exact habove (p + 1) (Nat.lt_of_le_of_ne hq hne) (Nat.le_refl _) htop
      rw [if_pos htop, hqe]
    · have hq' : q ≤ p := by
        rcases Nat.lt_or_ge q (p + 1) with h | h
        · exact Nat.lt_succ_iff.mp h
        · exact absurd (Nat.le_antisymm hq h ▸ hnl) htop
      rw [if_neg htop]
      exact ih hq' hnl (fun r h1 h2 => habove r h1 (Nat.le_succ_of_le h2))

theorem findNewlineBack_eq_none {s : List Char} :
    ∀ {p : Nat}, (∀ r, r ≤ p → s.get? r ≠ some '\n') → findNewlineBack s p = none := by
  intro p
  induction p with
  | zero =>
    intro h
    simp only [findNewlineBack]
    rw [if_neg (h 0 (Nat.le_refl 0))]
  | succ p ih =>
    intro h
    simp only [findNewlineBack]
    rw [if_neg (h (p + 1) (Nat.le_refl _))]
    exact ih (fun r hr => h r (Nat.le_succ_of_le hr))

theorem last_line_no_newline {s : List Char} (h : '\n' ∉ s) :
    last_line_of_file s = s := by
  unfold last_line_of_file
  by_cases hlen : s.length < 2
  · rw [if_pos hlen, takeLine_of_not_mem h]
  · have hnone : findNewlineBack s (s.length - 2) = none := by
      refine findNewlineBack_eq_none (fun r _ hr => ?_)
      exact h (List.get?_mem hr)
    rw [if_neg hlen, hnone, takeLine_of_not_mem h]

theorem last_line_append {a b : List Char} (hb : '\n' ∉ b) (hne : b ≠ []) :
    last_line_of_file (a ++ '\n' :: b) = b := by
  have hblen : 1 ≤ b.length := by
    cases b with
    | nil => exact absurd rfl hne
    | cons c cs => exact Nat.succ_le_succ (Nat.zero_le _)
  have hlen : (a ++ '\n' :: b).length = a.length + 1 + b.length := by
    simp [List.length_append]
    omega
  have hnl : (a ++ '\n' :: b).get? a.length = some '\n' := by
    rw [List.get?_append_right (Nat.le_refl _)]
    simp
  have hfound : findNewlineBack (a ++ '\n' :: b) ((a ++ '\n' :: b).length - 2)
      = some a.length := by
    refine findNewlineBack_eq_some ?_ hnl ?_
    · omega
    · intro r h1 h2 hcon
      have hr2 : r - a.length - 1 < b.length := by omega
      rw [List.get?_append_right (by omega)] at hcon
      have : ('\n' :: b).get? (r - a.length) = b.get? (r - a.length - 1) := by
        have : r - a.length = (r - a.length - 1) + 1 := by omega
        rw [this]
        rfl
      rw [this, List.get?_eq_get hr2] at hcon
      have : b.get ⟨r - a.length - 1, hr2⟩ ∈ b := b.get_mem _ _
      rw [Option.some_inj.mp hcon] at this
      exact hb this
  have hdrop : (a ++ '\n' :: b).drop (a.length + 1) = b := by
    have hl : a.length + 1 = (a ++ ['\n']).length := by simp
    rw [List.append_cons, hl]
    exact List.drop_left _ _
  unfold last_line_of_file
  rw [if_neg (by omega)]
  simp only [hfound]
  rw [hdrop, takeLine_of_not_mem hb]

theorem last_line_append_term {a b : List Char} (hb : '\n' ∉ b) :
    last_line_of_file (a ++ '\n' :: (b ++ ['\n'])) = b ++ ['\n'] := by
  have hlen : (a ++ '\n' :: (b ++ ['\n'])).length = a.length + b.length + 2 := by
    simp [List.length_append]
    omega
  have hnl : (a ++ '\n' :: (b ++ ['\n'])).get? a.length = some '\n' := by
    rw [List.get?_append_right (Nat.le_refl _)]
    simp
  have hfound : findNewlineBack (a ++ '\n' :: (b ++ ['\n']))
      ((a ++ '\n' :: (b ++ ['\n'])).length - 2) = some a.length := by
    refine findNewlineBack_eq_some (by omega) hnl ?_
    intro r h1 h2 hcon
    have hr2 : r - a.length - 1 < b.length := by omega
    rw [List.get?_append_right (by omega)] at hcon
    have hstep : ('\n' :: (b ++ ['\n'])).get? (r - a.length)
        = (b ++ ['\n']).get? (r - a.length - 1) := by
      have : r - a.length = (r - a.length - 1) + 1 := by omega
      rw [this]
      rfl
    rw [hstep, List.get?_append hr2, List.get?_eq_get hr2] at hcon
    have : b.get ⟨r - a.length - 1, hr2⟩ ∈ b := b.get_mem _ _
    rw [Option.some_inj.mp hcon] at this
    exact hb this
  have hdrop : (a ++ '\n' :: (b ++ ['\n'])).drop (a.length + 1) = b ++ ['\n'] := by
    have hl : a.length + 1 = (a ++ ['\n']).length := by simp
    rw [List.append_cons, hl]
    exact List.drop_left _ _
  unfold last_line_of_file
  rw [if_neg (by omega)]
  simp only [hfound]
  rw [hdrop, takeLine_append_newline hb]

/-! ## C4: tail_line / last_line_of_file -/

/-- C4 (counterexample): the claim says `tail_line` on a multi-line file
returns the final line's text *excluding* its trailing newline; but on the
multi-line file `"ab\ncd\n"` the code returns `"cd\n"`, which still carries
the trailing newline and differs from the claimed `"cd"`. -/
theorem tail_line_trailing_newline_kept :
    last_line_of_file_str "ab\ncd\n" = "cd\n" ∧ last_line_of_file_str "ab\ncd\n" ≠ "cd" := by
  constructor
  · rfl
  · decide

/-- C4 (amended): on a multi-line file whose final line `b` is newline-free
and non-empty, `last_line_of_file` returns `b`; when the file instead ends
with a newline right after `b`, the trailing newline is included in the
result; on a file with no newline at all (single-line, no preceding newline)
the entire content is returned; and on the empty file the result is the
empty string, without failing. -/
theorem tail_line_behaviour (a b s : List Char) (hb : '\n' ∉ b) (hbne : b ≠ [])
    (hs : '\n' ∉ s) :
    last_line_of_file (a ++ '\n' :: b) = b
    ∧ last_line_of_file (a ++ '\n' :: (b ++ ['\n'])) = b ++ ['\n']
    ∧ last_line_of_file s = s
    ∧ last_line_of_file [] = [] :=
  ⟨last_line_append hb hbne, last_line_append_term hb, last_line_no_newline hs, rfl⟩

/-- C4 (witness): the amended theorem applied to the file `"ab\ncd"`
(with `a = "ab"`, `b = "cd"`) and the single-line file `"xyz"`. -/
theorem tail_line_behaviour_witness :
    last_line_of_file ("ab".data ++ '\n' :: "cd".data) = "cd".data
    ∧ last_line_of_file ("ab".data ++ '\n' :: ("cd".data ++ ['\n'])) = "cd".data ++ ['\n']
    ∧ last_line_of_file "xyz".data = "xyz".data
    ∧ last_line_of_file [] = [] :=
  tail_line_behaviour "ab".data "cd".data "xyz".data (by decide) (by decide) (by decide)

/-! ## Helper lemmas on substring containment -/

theorem leadsWith_append (n t : List Char) : leadsWith n (n ++ t) = true := by
  induction n with
  | nil => rfl
  | cons c cs ih => simp [leadsWith, ih]

theorem containsSub_nil_needle (hay : List Char) : containsSub [] hay = true := by
  cases hay <;> simp [containsSub, leadsWith, List.isEmpty]

theorem containsSub_middle (pre n post : List Char) :
    containsSub n (pre ++ n ++ post) = true := by
  induction pre with
  | nil =>
    cases n with
    | nil => simpa using containsSub_nil_needle post
    | cons c cs =>
      simp only [List.nil_append, List.cons_append, containsSub, Bool.or_eq_true]
      exact Or.inl (leadsWith_append (c :: cs) post)
  | cons p ps ih =>
    have hc : (p :: ps) ++ n ++ post = p :: (ps ++ n ++ post) := by simp
    rw [hc]
    simp only [containsSub, Bool.or_eq_true]
    exact Or.inr ih

/-! ## Helper lemmas on stack attribution -/

theorem penultimate_append (l : List Frame) (a b : Frame) :
    penultimate (l ++ [a, b]) = a := by
  unfold penultimate
  have h1 : (l ++ [a, b]).length - 2 = l.length := by simp
  have h2 : (l ++ [a, b]).get? l.length = some a := by
    rw [List.get?_append_right (Nat.le_refl _)]
    simp
  rw [h1, h2]
  rfl

theorem strip_path_logger : strip_path loggerPath = "logger.py" := rfl

theorem strip_path_main : strip_path mainPath = "main.py" := rfl

/-- A direct `write_to_logfile` call with non-empty `text` from a function
whose frame is `fr`: the prefix attribution is `fr` (the immediate caller,
i.e. `stack[-2]` of the captured stack). -/
theorem write_to_logfile_direct (d t : String) (cs : List Frame) (fr : Frame)
    (content text : String) (h : text ≠ "") :
    write_to_logfile d t (cs ++ [fr]) content text
      = content ++ "\n" ++ ("[" ++ d ++ " " ++ t ++ ", " ++ strip_path fr.filename ++ ": "
          ++ toString fr.lineNo ++ "] " ++ text ++ " ") := by
  have hstack : extract_stack (cs ++ [fr]) ⟨loggerPath, 32⟩ = cs ++ [fr, ⟨loggerPath, 32⟩] := by
    simp [extract_stack]
  simp only [write_to_logfile, write_to_logfile_line, hstack, penultimate_append]
  rw [if_pos h]

/-- `error_handler` invoked by a function whose frame is `fr`: the message
body carries `fr`'s stripped file name and the supplied line number, but the
line appended by the inner `write_to_logfile` call is attributed to
logger.py line 55 — `error_handler`'s own frame is the penultimate one. -/
theorem error_handler_eq (d t : String) (cs : List Frame) (fr : Frame)
    (content err : String) (n : Nat) :
    error_handler d t (cs ++ [fr]) content err n
      = (content ++ "\n" ++ ("[" ++ d ++ " " ++ t ++ ", " ++ "logger.py" ++ ": " ++ "55" ++ "] "
            ++ ("  Error [File: " ++ strip_path fr.filename ++ " Line: " ++ toString n ++ "] - " ++ err)
            ++ " "),
         "  Error [File: " ++ strip_path fr.filename ++ " Line: " ++ toString n ++ "] - " ++ err) := by
  have hstack : extract_stack (cs ++ [fr]) ⟨loggerPath, 49⟩ = cs ++ [fr, ⟨loggerPath, 49⟩] := by
    simp [extract_stack]
  have hne : ("  Error [File: " ++ strip_path fr.filename ++ " Line: " ++ toString n ++ "] - " ++ err)
      ≠ "" := by
    intro hcon
    have hd := congrArg String.data hcon
    simp [String.data_append] at hd
  have hwtl := write_to_logfile_direct d t (cs ++ [fr]) ⟨loggerPath, 55⟩ content
    ("  Error [File: " ++ strip_path fr.filename ++ " Line: " ++ toString n ++ "] - " ++ err) hne
  simp only [error_handler, hstack, penultimate_append]
  rw [hwtl]
  rfl

/-! ## C2: write_line formatting and the START_SCRIPT sentinel -/

/-- C2 (code-bug evidence): the branch `elif log_text == START_SCRIPT` of
`write_to_logfile` is dead — `START_SCRIPT` is non-empty, so the first
branch (`log_text != ""`) already applies the timestamp/caller attribution
prefix to the sentinel instead of writing it verbatim.  Non-empty text and
the empty string behave as claimed: prefixed line with a leading newline,
and a bare newline respectively. -/
theorem start_script_banner_prefixed :
    write_to_logfile "10/12/2026" "01:02:03 PM UTC" [⟨"fastly.py", 7⟩] "" START_SCRIPT
      = "\n[10/12/2026 01:02:03 PM UTC, fastly.py: 7] -------------/ Start of Script \\-------------- "
    ∧ write_to_logfile "10/12/2026" "01:02:03 PM UTC" [⟨"fastly.py", 7⟩] "" START_SCRIPT
      ≠ "\n" ++ START_SCRIPT
    ∧ write_to_logfile "10/12/2026" "01:02:03 PM UTC" [⟨"fastly.py", 7⟩] "PREV" "hello"
      = "PREV\n[10/12/2026 01:02:03 PM UTC, fastly.py: 7] hello "
    ∧ write_to_logfile "10/12/2026" "01:02:03 PM UTC" [⟨"fastly.py", 7⟩] "PREV" ""
      = "PREV\n" := by
  refine ⟨rfl, ?_, rfl, rfl⟩
  decide

/-! ## C5: call-site attribution -/

/-- C5 (counterexample): a function in `fastly.py` at line 99 calls
`error_handler`.  The claim says the logged line's attribution names
`error_handler`'s caller; but the line appended to the log is attributed to
`logger.py: 55` (the `write_to_logfile(e)` call inside `error_handler`
itself) — its prefix nowhere references `fastly.py` as the attributed file
(the caller's name survives only inside the message body, after `File:`). -/
theorem record_error_prefix_misattributed :
    (error_handler "10/12/2026" "01:02:03 PM UTC" [⟨"fastly.py", 99⟩] "" "boom" 99).1
      = "\n[10/12/2026 01:02:03 PM UTC, logger.py: 55]   Error [File: fastly.py Line: 99] - boom "
    ∧ containsSub ", fastly.py: ".data
        ((error_handler "10/12/2026" "01:02:03 PM UTC" [⟨"fastly.py", 99⟩] "" "boom" 99).1).data
      = false :=
  ⟨rfl, rfl⟩

/-- C5 (amended): the prefix attribution chosen by `write_to_logfile` is the
frame of its *immediate* caller (`stack[-2]`), with the directory components
of the file name stripped under both slash conventions.  For a direct call
from a frame `fr` the appended line is therefore attributed to the function
that called the logging facility; but for a call routed through
`error_handler` the prefix is attributed to `logger.py: 55`
(`error_handler`'s own frame), while `error_handler`'s caller is identified
only inside the message body together with the supplied line number. -/
theorem log_attribution (d t : String) (cs : List Frame) (fr : Frame)
    (content text err : String) (n : Nat) (h : text ≠ "") :
    write_to_logfile d t (cs ++ [fr]) content text
      = content ++ "\n" ++ ("[" ++ d ++ " " ++ t ++ ", " ++ strip_path fr.filename ++ ": "
          ++ toString fr.lineNo ++ "] " ++ text ++ " ")
    ∧ (error_handler d t (cs ++ [fr]) content err n).1
      = content ++ "\n" ++ ("[" ++ d ++ " " ++ t ++ ", " ++ "logger.py" ++ ": " ++ "55" ++ "] "
          ++ ("  Error [File: " ++ strip_path fr.filename ++ " Line: " ++ toString n ++ "] - " ++ err)
          ++ " ") :=
  ⟨write_to_logfile_direct d t cs fr content text h,
   congrArg Prod.fst (error_handler_eq d t cs fr content err n)⟩

/-- C5 (witness): the amended attribution theorem applied at a concrete call
from `src/fastly.py` line 12. -/
theorem log_attribution_witness :
    write_to_logfile "d" "t" ([] ++ [⟨"src/fastly.py", 12⟩]) "L" "msg"
      = "L" ++ "\n" ++ ("[" ++ "d" ++ " " ++ "t" ++ ", " ++ strip_path "src/fastly.py" ++ ": "
          ++ toString 12 ++ "] " ++ "msg" ++ " ")
    ∧ (error_handler "d" "t" ([] ++ [⟨"src/fastly.py", 12⟩]) "L" "oops" 12).1
      = "L" ++ "\n" ++ ("[" ++ "d" ++ " " ++ "t" ++ ", " ++ "logger.py" ++ ": " ++ "55" ++ "] "
          ++ ("  Error [File: " ++ strip_path "src/fastly.py" ++ " Line: " ++ toString 12 ++ "] - "
              ++ "oops") ++ " ") :=
  log_attribution "d" "t" [] ⟨"src/fastly.py", 12⟩ "L" "msg" "oops" 12 (by decide)

/-! ## Dispatcher: argument binding -/

theorem operation_arguments_mem (α : Type) (params : List String)
    (request : List (String × Option α)) (p : String) (v : α) :
    (p, v) ∈ operation_arguments α params request
      ↔ p ∈ params ∧ request.lookup p = some (some v) := by
  unfold operation_arguments
  rw [List.mem_filterMap]
  constructor
  · rintro ⟨a, ha, hfa⟩
    cases hl : request.lookup a with
    | none =>
      rw [hl] at hfa
      cases hfa
    | some o =>
      cases o with
      | none =>
        rw [hl] at hfa
        cases hfa
      | some w =>
        rw [hl] at hfa
        simp only [Option.some.injEq, Prod.mk.injEq] at hfa
        obtain ⟨rfl, rfl⟩ := hfa
        exact ⟨ha, hl⟩
  · rintro ⟨hp, hl⟩
    refine ⟨p, hp, ?_⟩
    rw [hl]

/-- C1: when the operation is registered, `main` invokes its handler exactly
once, with exactly the bound argument list built by `operation_arguments`;
and a name/value pair is bound iff the name is a declared parameter of the
handler that is present in the request with a non-null value.  Undeclared
names are never passed, and declared-but-null/absent names are omitted
entirely (the bound list carries plain values, never an explicit null). -/
theorem dispatch_binds_declared_present (α : Type) (d t : String) (cs0 : List Frame)
    (ops : List (String × Handler α)) (name : String) (op : Handler α)
    (request : List (String × Option α)) (L : String)
    (hop : ops.lookup name = some op) :
    (main α d t cs0 ops name request L).calls
      = [(name, operation_arguments α op.params request)]
    ∧ ∀ (p : String) (v : α),
        (p, v) ∈ operation_arguments α op.params request
          ↔ p ∈ op.params ∧ request.lookup p = some (some v) := by
  constructor
  · simp only [main, hop]
    by_cases hc : op.call (operation_arguments α op.params request) = true
    · simp [hc]
    · simp [hc]
  · intro p v
    exact operation_arguments_mem α op.params request p v

/-- C1 (witness): a probe handler declaring `api_key` and `dictionary_name`,
dispatched with `api_key` present, an undeclared `noise` name present, and
`dictionary_name` explicitly null: only `("api_key", "K")` is bound. -/
theorem dispatch_binds_declared_present_witness :
    (main String "d" "t" []
        [("probe", ⟨["api_key", "dictionary_name"], fun l => l.length == 1⟩)]
        "probe" [("api_key", some "K"), ("noise", some "N"), ("dictionary_name", none)]
        "L").calls
      = [("probe", operation_arguments String ["api_key", "dictionary_name"]
            [("api_key", some "K"), ("noise", some "N"), ("dictionary_name", none)])]
    ∧ (("api_key", "K") ∈ operation_arguments String ["api_key", "dictionary_name"]
          [("api_key", some "K"), ("noise", some "N"), ("dictionary_name", none)]
        ↔ "api_key" ∈ ["api_key", "dictionary_name"]
          ∧ [("api_key", some "K"), ("noise", some "N"),
              ("dictionary_name", none)].lookup "api_key" = some (some "K")) :=
  ⟨(dispatch_binds_declared_present String "d" "t" []
      [("probe", ⟨["api_key", "dictionary_name"], fun l => l.length == 1⟩)]
      "probe" ⟨["api_key", "dictionary_name"], fun l => l.length == 1⟩
      [("api_key", some "K"), ("noise", some "N"), ("dictionary_name", none)]
      "L" rfl).1,
   (dispatch_binds_declared_present String "d" "t" []
      [("probe", ⟨["api_key", "dictionary_name"], fun l => l.length == 1⟩)]
      "probe" ⟨["api_key", "dictionary_name"], fun l => l.length == 1⟩
      [("api_key", some "K"), ("noise", some "N"), ("dictionary_name", none)]
      "L" rfl).2 "api_key" "K"⟩

/-! ## String-level containment and newline-freeness helpers -/

theorem containsSub_str (pre mid post : String) :
    containsSub mid.data (pre ++ mid ++ post).data = true := by
  rw [String.data_append, String.data_append]
  exact containsSub_middle pre.data mid.data post.data

theorem newline_not_mem_append {s t : String} (hs : '\n' ∉ s.data) (ht : '\n' ∉ t.data) :
    '\n' ∉ (s ++ t).data := by
  rw [String.data_append]
  intro h
  rcases List.mem_append.mp h with h | h
  · exact hs h
  · exact ht h

/-! ## C6: dispatching an unregistered operation name -/

/-- C6 (counterexample): dispatching the unregistered name
`"delete_everything"` raises and logs — but the message the code formats is
`"Operation, 'delete_everything', does not exist or is unavailable."`, with
commas after `Operation` and after the quoted name, so the logged line does
*not* contain the claim's comma-free message
`"Operation 'delete_everything' does not exist or is unavailable."`. -/
theorem unknown_operation_message_commas :
    (main String "d" "t" [] [] "delete_everything" [] "L").calls = []
    ∧ (main String "d" "t" [] [] "delete_everything" [] "L").outcome
        = Except.error "Operation, 'delete_everything', does not exist or is unavailable."
    ∧ (main String "d" "t" [] [] "delete_everything" [] "L").log
        = "L\n[d t, logger.py: 55]   Error [File: main.py Line: 70] - Operation, 'delete_everything', does not exist or is unavailable. "
    ∧ containsSub "Operation 'delete_everything' does not exist or is unavailable.".data
        ((main String "d" "t" [] [] "delete_everything" [] "L").log).data = false :=
  ⟨rfl, rfl, rfl, rfl⟩

/-- C6 (amended): for any name absent from the registry, `main` invokes no
handler, raises `"Operation, '<name>', does not exist or is unavailable."`
(with commas), and appends exactly one log line — a single newline-prefixed
line that contains the error message and references the name. -/
theorem unknown_operation_logs_once (α : Type) (d t : String) (cs0 : List Frame)
    (ops : List (String × Handler α)) (name : String)
    (request : List (String × Option α)) (L : String)
    (habs : ops.lookup name = none)
    (hd : '\n' ∉ d.data) (ht : '\n' ∉ t.data) (hn : '\n' ∉ name.data) :
    (main α d t cs0 ops name request L).calls = []
    ∧ (main α d t cs0 ops name request L).outcome
        = Except.error ("Operation, '" ++ name ++ "', does not exist or is unavailable.")
    ∧ (main α d t cs0 ops name request L).log
        = L ++ "\n" ++ ("[" ++ d ++ " " ++ t ++ ", " ++ "logger.py" ++ ": " ++ "55" ++ "] "
            ++ ("  Error [File: " ++ strip_path mainPath ++ " Line: " ++ toString 70 ++ "] - "
                ++ ("Operation, '" ++ name ++ "', does not exist or is unavailable.")) ++ " ")
    ∧ containsSub ("Operation, '" ++ name ++ "', does not exist or is unavailable.").data
        ((main α d t cs0 ops name request L).log).data = true
    ∧ containsSub name.data ((main α d t cs0 ops name request L).log).data = true
    ∧ '\n' ∉ ("[" ++ d ++ " " ++ t ++ ", " ++ "logger.py" ++ ": " ++ "55" ++ "] "
            ++ ("  Error [File: " ++ strip_path mainPath ++ " Line: " ++ toString 70 ++ "] - "
                ++ ("Operation, '" ++ name ++ "', does not exist or is unavailable.")) ++ " ").data := by
  have hlog : (main α d t cs0 ops name request L).log
      = L ++ "\n" ++ ("[" ++ d ++ " " ++ t ++ ", " ++ "logger.py" ++ ": " ++ "55" ++ "] "
          ++ ("  Error [File: " ++ strip_path mainPath ++ " Line: " ++ toString 70 ++ "] - "
              ++ ("Operation, '" ++ name ++ "', does not exist or is unavailable.")) ++ " ") := by
    simp only [main, habs]
    exact congrArg Prod.fst (error_handler_eq d t cs0 ⟨mainPath, 70⟩ L
      ("Operation, '" ++ name ++ "', does not exist or is unavailable.") 70)
  refine ⟨?_, ?_, hlog, ?_, ?_, ?_⟩
  · simp only [main, habs]
  · simp only [main, habs]
  · have hform : (main α d t cs0 ops name request L).log
        = (L ++ "\n" ++ "[" ++ d ++ " " ++ t ++ ", " ++ "logger.py" ++ ": " ++ "55" ++ "] "
            ++ "  Error [File: " ++ strip_path mainPath ++ " Line: " ++ toString 70 ++ "] - ")
          ++ ("Operation, '" ++ name ++ "', does not exist or is unavailable.") ++ " " := by
      rw [hlog]
      apply String.ext
      simp [String.data_append]
    rw [hform]
    exact containsSub_str _ _ _
  · have hform : (main α d t cs0 ops name request L).log
        = (L ++ "\n" ++ "[" ++ d ++ " " ++ t ++ ", " ++ "logger.py" ++ ": " ++ "55" ++ "] "
            ++ "  Error [File: " ++ strip_path mainPath ++ " Line: " ++ toString 70 ++ "] - "
            ++ "Operation, '")
          ++ name ++ ("', does not exist or is unavailable." ++ " ") := by
      rw [hlog]
      apply String.ext
      simp [String.data_append]
    rw [hform]
    exact containsSub_str _ _ _
  · repeat' apply newline_not_mem_append
    all_goals first | exact hd | exact ht | exact hn | decide

/-- C6 (witness): the amended theorem at the unregistered name
`"delete_everything"` against a one-entry registry. -/
theorem unknown_operation_logs_once_witness :
    (main String "10/12/2026" "01:02:03 PM UTC" []
        [("backup_acl", ⟨["api_key"], fun _ => true⟩)] "delete_everything" [] "L").calls = []
    ∧ (main String "10/12/2026" "01:02:03 PM UTC" []
        [("backup_acl", ⟨["api_key"], fun _ => true⟩)] "delete_everything" [] "L").outcome
        = Except.error ("Operation, '" ++ "delete_everything"
            ++ "', does not exist or is unavailable.")
    ∧ (main String "10/12/2026" "01:02:03 PM UTC" []
        [("backup_acl", ⟨["api_key"], fun _ => true⟩)] "delete_everything" [] "L").log
        = "L" ++ "\n" ++ ("[" ++ "10/12/2026" ++ " " ++ "01:02:03 PM UTC" ++ ", " ++ "logger.py"
            ++ ": " ++ "55" ++ "] "
            ++ ("  Error [File: " ++ strip_path mainPath ++ " Line: " ++ toString 70 ++ "] - "
                ++ ("Operation, '" ++ "delete_everything"
                    ++ "', does not exist or is unavailable.")) ++ " ")
    ∧ containsSub ("Operation, '" ++ "delete_everything"
          ++ "', does not exist or is unavailable.").data
        ((main String "10/12/2026" "01:02:03 PM UTC" []
          [("backup_acl", ⟨["api_key"], fun _ => true⟩)] "delete_everything" [] "L").log).data
        = true
    ∧ containsSub "delete_everything".data
        ((main String "10/12/2026" "01:02:03 PM UTC" []
          [("backup_acl", ⟨["api_key"], fun _ => true⟩)] "delete_everything" [] "L").log).data
        = true
    ∧ '\n' ∉ ("[" ++ "10/12/2026" ++ " " ++ "01:02:03 PM UTC" ++ ", " ++ "logger.py" ++ ": "
            ++ "55" ++ "] "
            ++ ("  Error [File: " ++ strip_path mainPath ++ " Line: " ++ toString 70 ++ "] - "
                ++ ("Operation, '" ++ "delete_everything"
                    ++ "', does not exist or is unavailable.")) ++ " ").data :=
  unknown_operation_logs_once String "10/12/2026" "01:02:03 PM UTC" []
    [("backup_acl", ⟨["api_key"], fun _ => true⟩)] "delete_everything" [] "L"
    rfl (by decide) (by decide) (by decide)

/-! ## C7: handler signalling failure -/

/-- C7: when the registered handler runs and returns a falsy result, `main`
formats `"Operation, <name>, has failed."`, writes it to the log via
`error_handler` (called from main.py line 62), and raises that message
instead of returning normally. -/
theorem failed_operation_raises (α : Type) (d t : String) (cs0 : List Frame)
    (ops : List (String × Handler α)) (name : String) (op : Handler α)
    (request : List (String × Option α)) (L : String)
    (hop : ops.lookup name = some op)
    (hfail : op.call (operation_arguments α op.params request) = false) :
    (main α d t cs0 ops name request L).outcome
        = Except.error ("Operation, " ++ name ++ ", has failed.")
    ∧ (main α d t cs0 ops name request L).log
        = L ++ "\n" ++ ("[" ++ d ++ " " ++ t ++ ", " ++ "logger.py" ++ ": " ++ "55" ++ "] "
            ++ ("  Error [File: " ++ strip_path mainPath ++ " Line: " ++ toString 62 ++ "] - "
                ++ ("Operation, " ++ name ++ ", has failed.")) ++ " ")
    ∧ containsSub ("Operation, " ++ name ++ ", has failed.").data
        ((main α d t cs0 ops name request L).log).data = true := by
  have hlog : (main α d t cs0 ops name request L).log
      = L ++ "\n" ++ ("[" ++ d ++ " " ++ t ++ ", " ++ "logger.py" ++ ": " ++ "55" ++ "] "
          ++ ("  Error [File: " ++ strip_path mainPath ++ " Line: " ++ toString 62 ++ "] - "
              ++ ("Operation, " ++ name ++ ", has failed.")) ++ " ") := by
    simp only [main, hop, hfail, Bool.false_eq_true, if_false]
    exact congrArg Prod.fst (error_handler_eq d t cs0 ⟨mainPath, 62⟩ L
      ("Operation, " ++ name ++ ", has failed.") 62)
  refine ⟨?_, hlog, ?_⟩
  · simp only [main, hop, hfail, Bool.false_eq_true, if_false]
  · have hform : (main α d t cs0 ops name request L).log
        = (L ++ "\n" ++ "[" ++ d ++ " " ++ t ++ ", " ++ "logger.py" ++ ": " ++ "55" ++ "] "
            ++ "  Error [File: " ++ strip_path mainPath ++ " Line: " ++ toString 62 ++ "] - ")
          ++ ("Operation, " ++ name ++ ", has failed.") ++ " " := by
      rw [hlog]
      apply String.ext
      simp [String.data_append]
    rw [hform]
    exact containsSub_str _ _ _

/-- C7 (witness): a registered probe operation whose handler returns a falsy
result. -/
theorem failed_operation_raises_witness :
    (main String "10/12/2026" "01:02:03 PM UTC" []
        [("backup_acl", ⟨["api_key"], fun _ => false⟩)] "backup_acl"
        [("api_key", some "K")] "L").outcome
        = Except.error ("Operation, " ++ "backup_acl" ++ ", has failed.")
    ∧ (main String "10/12/2026" "01:02:03 PM UTC" []
        [("backup_acl", ⟨["api_key"], fun _ => false⟩)] "backup_acl"
        [("api_key", some "K")] "L").log
        = "L" ++ "\n" ++ ("[" ++ "10/12/2026" ++ " " ++ "01:02:03 PM UTC" ++ ", " ++ "logger.py"
            ++ ": " ++ "55" ++ "] "
            ++ ("  Error [File: " ++ strip_path mainPath ++ " Line: " ++ toString 62 ++ "] - "
                ++ ("Operation, " ++ "backup_acl" ++ ", has failed.")) ++ " ")
    ∧ containsSub ("Operation, " ++ "backup_acl" ++ ", has failed.").data
        ((main String "10/12/2026" "01:02:03 PM UTC" []
          [("backup_acl", ⟨["api_key"], fun _ => false⟩)] "backup_acl"
          [("api_key", some "K")] "L").log).data = true :=
  failed_operation_raises String "10/12/2026" "01:02:03 PM UTC" []
    [("backup_acl", ⟨["api_key"], fun _ => false⟩)] "backup_acl"
    ⟨["api_key"], fun _ => false⟩ [("api_key", some "K")] "L" rfl rfl

/-! ## C9: parse_key_value_pairs -/

/-- C9: `parse_key_value_pairs("a:1,b:2")` yields the mapping
`{"a": "1", "b": "2"}`, and `parse_key_value_pairs("bad")` — a pair without
exactly one colon-separated split — raises the formatting error. -/
theorem parse_key_value_pairs_spec :
    parse_key_value_pairs "a:1,b:2" = Except.ok [("a", "1"), ("b", "2")]
    ∧ parse_key_value_pairs "bad" = Except.error "Invalid key:value pair format: bad"
    ∧ parse_key_value_pairs "a:1:2" = Except.error "Invalid key:value pair format: a:1:2" :=
  ⟨rfl, rfl, rfl⟩

/-! ## C10: append_row requires the log file to exist -/

/-- C10: `write_to_file` reads the tail line of the process-wide log file
before touching the data file; when the log file does not exist the call
fails with the file-not-found error, the file system is left untouched, and
in particular nothing is appended to the target data file. -/
theorem append_row_requires_logfile (ser : List String → Except Unit String)
    (d t : String) (cs : List Frame) (fs : FS) (fn : String) (entry : List String)
    (h : fs LOGFILE = none) :
    (write_to_file ser d t cs fs fn entry).2 = Except.error ()
    ∧ (write_to_file ser d t cs fs fn entry).1 = fs
    ∧ (write_to_file ser d t cs fs fn entry).1 fn = fs fn := by
  have hll : last_line_of_file_fs fs LOGFILE = Except.error () := by
    unfold last_line_of_file_fs
    rw [h]
  simp only [write_to_file, hll]
  exact ⟨trivial, trivial, trivial⟩

/-- C10 (witness): an empty file system (no log file) with a trivial
serializer: the call errors and the data file `"out.csv"` stays absent. -/
theorem append_row_requires_logfile_witness :
    (write_to_file (fun r => Except.ok (joinRow r)) "d" "t" []
        (fun _ => none) "out.csv" ["x"]).2 = Except.error ()
    ∧ (write_to_file (fun r => Except.ok (joinRow r)) "d" "t" []
        (fun _ => none) "out.csv" ["x"]).1 = (fun _ => none)
    ∧ (write_to_file (fun r => Except.ok (joinRow r)) "d" "t" []
        (fun _ => none) "out.csv" ["x"]).1 "out.csv" = (fun (_ : String) => (none : Option String)) "out.csv" :=
  append_row_requires_logfile (fun r => Except.ok (joinRow r)) "d" "t" []
    (fun _ => none) "out.csv" ["x"] rfl

/-! ## Helper lemmas on the formatted log line and `write_to_file` -/

theorem notice_ne (fn : String) : notice fn ≠ "" := by
  intro h
  have hd := congrArg String.data h
  simp [notice, String.data_append] at hd

theorem write_line_decomp (d t : String) (stack : List Frame) (text : String)
    (h : text ≠ "") :
    write_to_logfile_line d t stack text
      = ("[" ++ d ++ " " ++ t ++ ", " ++ strip_path (penultimate stack).filename ++ ": "
          ++ toString (penultimate stack).lineNo ++ "] ") ++ text ++ " " := by
  unfold write_to_logfile_line
  rw [if_pos h]

theorem write_line_data_ne (d t : String) (stack : List Frame) (text : String)
    (h : text ≠ "") :
    (write_to_logfile_line d t stack text).data ≠ [] := by
  rw [write_line_decomp d t stack text h]
  simp [String.data_append]

theorem write_line_contains (d t : String) (stack : List Frame) (text : String)
    (h : text ≠ "") :
    containsSub text.data (write_to_logfile_line d t stack text).data = true := by
  rw [write_line_decomp d t stack text h]
  exact containsSub_str _ _ _

/-- `write_to_file` when the notice is *not* contained in the log's tail
line: the notice line is appended to the log, the serialized row is appended
to the data file, and the call succeeds. -/
theorem write_to_file_emit (ser : List String → Except Unit String) (d t : String)
    (cs : List Frame) (fs : FS) (L fn : String) (r : List String) (s : String)
    (hlog : fs LOGFILE = some L)
    (hfn : fn ≠ LOGFILE)
    (hser : ser r = Except.ok s)
    (hfresh : containsSub (notice fn).data (last_line_of_file_str L).data = false) :
    (write_to_file ser d t cs fs fn r).1 LOGFILE
        = some (L ++ "\n" ++ noticeLine d t cs fn)
    ∧ (write_to_file ser d t cs fs fn r).1 fn = some (((fs fn).getD "") ++ s)
    ∧ (write_to_file ser d t cs fs fn r).2 = Except.ok () := by
  have hll : last_line_of_file_fs fs LOGFILE = Except.ok (last_line_of_file_str L) := by
    unfold last_line_of_file_fs
    rw [hlog]
  have hupd : write_to_logfile_fs d t cs fs (notice fn)
      = FS.update fs LOGFILE (L ++ "\n" ++ noticeLine d t cs fn) := by
    unfold write_to_logfile_fs write_to_logfile
    rw [hlog]
    rfl
  simp only [write_to_file, hll, hfresh, Bool.false_eq_true, if_false, hupd]
  rw [hser]
  refine ⟨?_, ?_, rfl⟩
  · simp [FS.update, hfn, Ne.symm hfn]
  · simp [FS.update, hfn, Ne.symm hfn]

/-- `write_to_file` when the notice *is* contained in the log's tail line:
the log file is left unchanged and only the data row is appended. -/
theorem write_to_file_skip (ser : List String → Except Unit String) (d t : String)
    (cs : List Frame) (fs : FS) (L fn : String) (r : List String) (s : String)
    (hlog : fs LOGFILE = some L)
    (hfn : fn ≠ LOGFILE)
    (hser : ser r = Except.ok s)
    (hdup : containsSub (notice fn).data (last_line_of_file_str L).data = true) :
    (write_to_file ser d t cs fs fn r).1 LOGFILE = some L
    ∧ (write_to_file ser d t cs fs fn r).1 fn = some (((fs fn).getD "") ++ s)
    ∧ (write_to_file ser d t cs fs fn r).2 = Except.ok () := by
  have hll : last_line_of_file_fs fs LOGFILE = Except.ok (last_line_of_file_str L) := by
    unfold last_line_of_file_fs
    rw [hlog]
  simp only [write_to_file, hll, hdup, if_true]
  rw [hser]
  refine ⟨?_, ?_, rfl⟩
  · simp [FS.update, hfn, Ne.symm hfn, hlog]
  · simp [FS.update, hfn, Ne.symm hfn]

/-! ## C8: encoding error on a data write -/

/-- C8: when serializing the row raises a `UnicodeEncodeError`, the
`write_to_file` call does not fail: the placeholder row (the characters of
`"UnicodeEncodeError"` as fields) is written to the data file in place of
the row, so one encoding-incompatible row never aborts the call. -/
theorem encoding_error_writes_placeholder (enc : Char → Bool) (d t : String)
    (cs : List Frame) (fs : FS) (L fn : String) (entry : List String) (ph : String)
    (hlog : fs LOGFILE = some L)
    (hfn : fn ≠ LOGFILE)
    (henc : csvSerialize enc entry = Except.error ())
    (hph : csvSerialize enc placeholderRow = Except.ok ph) :
    (write_to_file (csvSerialize enc) d t cs fs fn entry).2 = Except.ok ()
    ∧ (write_to_file (csvSerialize enc) d t cs fs fn entry).1 fn
        = some (((fs fn).getD "") ++ ph) := by
  have hll : last_line_of_file_fs fs LOGFILE = Except.ok (last_line_of_file_str L) := by
    unfold last_line_of_file_fs
    rw [hlog]
  have hwl : write_to_logfile_fs d t cs fs (notice fn) fn = fs fn := by
    unfold write_to_logfile_fs FS.update
    rw [if_neg hfn]
  simp only [write_to_file, hll, henc, hph]
  by_cases hc : containsSub (notice fn).data (last_line_of_file_str L).data = true
  · simp only [hc, if_true]
    refine ⟨trivial, ?_⟩
    simp [FS.update, hfn]
  · simp only [Bool.not_eq_true] at hc
    simp only [hc, Bool.false_eq_true, if_false]
    refine ⟨trivial, ?_⟩
    simp [FS.update, hfn]
    rw [hwl]

/-- C8 (witness): under an ASCII-only encoding, the row `["héllo"]` fails to
serialize and the placeholder record is appended instead, with no error. -/
theorem encoding_error_writes_placeholder_witness :
    (write_to_file (csvSerialize (fun c => decide (c.toNat < 128))) "d" "t" []
        (fun n => if n = "log.txt" then some "prev" else none) "data.csv" ["héllo"]).2
      = Except.ok ()
    ∧ (write_to_file (csvSerialize (fun c => decide (c.toNat < 128))) "d" "t" []
        (fun n => if n = "log.txt" then some "prev" else none) "data.csv" ["héllo"]).1
        "data.csv"
      = some ((((fun n => if n = "log.txt" then some "prev" else none : FS) "data.csv").getD "")
          ++ "U,n,i,c,o,d,e,E,n,c,o,d,e,E,r,r,o,r\r\n") :=
  encoding_error_writes_placeholder (fun c => decide (c.toNat < 128)) "d" "t" []
    (fun n => if n = "log.txt" then some "prev" else none) "prev" "data.csv" ["héllo"]
    "U,n,i,c,o,d,e,E,n,c,o,d,e,E,r,r,o,r\r\n" rfl (by decide) rfl rfl

/-! ## C3: deduplication of the "Writing Data to" notice -/

/-- C3: two immediate `write_to_file` calls for the same file name emit the
`Writing Data to: "<filename>"` notice only once while appending both data
rows and succeeding; but after a different log line is written in between,
the same notice is emitted a second time — the dedup check inspects only the
single most recent line of the log file. -/
theorem write_notice_dedup (ser : List String → Except Unit String)
    (d1 t1 d2 t2 d3 t3 : String) (cs1 cs2 cs3 : List Frame)
    (fs : FS) (L fn u : String) (r1 r2 : List String) (s1 s2 : String)
    (hlog : fs LOGFILE = some L)
    (hfn : fn ≠ LOGFILE)
    (hs1 : ser r1 = Except.ok s1) (hs2 : ser r2 = Except.ok s2)
    (hfresh : containsSub (notice fn).data (last_line_of_file_str L).data = false)
    (hline1 : '\n' ∉ (noticeLine d1 t1 cs1 fn).data)
    (hu : u ≠ "")
    (huline : '\n' ∉ (write_to_logfile_line d3 t3 (extract_stack cs3 ⟨loggerPath, 32⟩) u).data)
    (hufresh : containsSub (notice fn).data
        (write_to_logfile_line d3 t3 (extract_stack cs3 ⟨loggerPath, 32⟩) u).data = false) :
    (write_to_file ser d1 t1 cs1 fs fn r1).1 LOGFILE
        = some (L ++ "\n" ++ noticeLine d1 t1 cs1 fn)
    ∧ (write_to_file ser d2 t2 cs2 (write_to_file ser d1 t1 cs1 fs fn r1).1 fn r2).1 LOGFILE
        = some (L ++ "\n" ++ noticeLine d1 t1 cs1 fn)
    ∧ (write_to_file ser d2 t2 cs2 (write_to_file ser d1 t1 cs1 fs fn r1).1 fn r2).1 fn
        = some ((((fs fn).getD "") ++ s1) ++ s2)
    ∧ (write_to_file ser d2 t2 cs2 (write_to_file ser d1 t1 cs1 fs fn r1).1 fn r2).2
        = Except.ok ()
    ∧ (write_to_file ser d2 t2 cs2
          (write_to_logfile_fs d3 t3 cs3 (write_to_file ser d1 t1 cs1 fs fn r1).1 u) fn r2).1
        LOGFILE
        = some ((L ++ "\n" ++ noticeLine d1 t1 cs1 fn ++ "\n"
              ++ write_to_logfile_line d3 t3 (extract_stack cs3 ⟨loggerPath, 32⟩) u)
            ++ "\n" ++ noticeLine d2 t2 cs2 fn) := by
  have hnl1ne : (noticeLine d1 t1 cs1 fn).data ≠ [] :=
    write_line_data_ne d1 t1 (extract_stack cs1 ⟨loggerPath, 32⟩) (notice fn) (notice_ne fn)
  have h1 := write_to_file_emit ser d1 t1 cs1 fs L fn r1 s1 hlog hfn hs1 hfresh
  have hlast : last_line_of_file_str (L ++ "\n" ++ noticeLine d1 t1 cs1 fn)
      = noticeLine d1 t1 cs1 fn := by
    unfold last_line_of_file_str
    have hdata : (L ++ "\n" ++ noticeLine d1 t1 cs1 fn).data
        = L.data ++ '\n' :: (noticeLine d1 t1 cs1 fn).data := by
      simp [String.data_append]
    rw [hdata, last_line_append hline1 hnl1ne]
  have hdup : containsSub (notice fn).data
      (last_line_of_file_str (L ++ "\n" ++ noticeLine d1 t1 cs1 fn)).data = true := by
    rw [hlast]
    exact write_line_contains d1 t1 (extract_stack cs1 ⟨loggerPath, 32⟩) (notice fn)
      (notice_ne fn)
  have h2 := write_to_file_skip ser d2 t2 cs2 (write_to_file ser d1 t1 cs1 fs fn r1).1
    (L ++ "\n" ++ noticeLine d1 t1 cs1 fn) fn r2 s2 h1.1 hfn hs2 hdup
  have hulne : (write_to_logfile_line d3 t3 (extract_stack cs3 ⟨loggerPath, 32⟩) u).data
      ≠ [] := write_line_data_ne d3 t3 (extract_stack cs3 ⟨loggerPath, 32⟩) u hu
  have hglog : (write_to_logfile_fs d3 t3 cs3 (write_to_file ser d1 t1 cs1 fs fn r1).1 u)
        LOGFILE
      = some ((L ++ "\n" ++ noticeLine d1 t1 cs1 fn) ++ "\n"
          ++ write_to_logfile_line d3 t3 (extract_stack cs3 ⟨loggerPath, 32⟩) u) := by
    unfold write_to_logfile_fs
    simp only [FS.update, if_pos rfl, h1.1, Option.getD_some]
    rfl
  have hlast2 : last_line_of_file_str ((L ++ "\n" ++ noticeLine d1 t1 cs1 fn) ++ "\n"
        ++ write_to_logfile_line d3 t3 (extract_stack cs3 ⟨loggerPath, 32⟩) u)
      = write_to_logfile_line d3 t3 (extract_stack cs3 ⟨loggerPath, 32⟩) u := by
    unfold last_line_of_file_str
    have hdata : ((L ++ "\n" ++ noticeLine d1 t1 cs1 fn) ++ "\n"
          ++ write_to_logfile_line d3 t3 (extract_stack cs3 ⟨loggerPath, 32⟩) u).data
        = (L ++ "\n" ++ noticeLine d1 t1 cs1 fn).data
            ++ '\n' :: (write_to_logfile_line d3 t3 (extract_stack cs3 ⟨loggerPath, 32⟩) u).data := by
      simp [String.data_append]
    rw [hdata, last_line_append huline hulne]
  have hfresh2 : containsSub (notice fn).data
      (last_line_of_file_str ((L ++ "\n" ++ noticeLine d1 t1 cs1 fn) ++ "\n"
        ++ write_to_logfile_line d3 t3 (extract_stack cs3 ⟨loggerPath, 32⟩) u)).data
      = false := by
    rw [hlast2]
    exact hufresh
  have h3 := write_to_file_emit ser d2 t2 cs2
    (write_to_logfile_fs d3 t3 cs3 (write_to_file ser d1 t1 cs1 fs fn r1).1 u)
    ((L ++ "\n" ++ noticeLine d1 t1 cs1 fn) ++ "\n"
      ++ write_to_logfile_line d3 t3 (extract_stack cs3 ⟨loggerPath, 32⟩) u)
    fn r2 s2 hglog hfn hs2 hfresh2
  refine ⟨h1.1, h2.1, ?_, h2.2.2, ?_⟩
  · rw [h2.2.1, h1.2.1]
    rfl
  · exact h3.1

/-- C3 (witness): the dedup theorem at a concrete file system whose log file
contains `"start"`, writing rows `["a"]` then `["b"]` to `"out.csv"`. -/
theorem write_notice_dedup_witness :
    (write_to_file (fun r => Except.ok (joinRow r)) "d2" "t2" [⟨"fastly.py", 60⟩]
        (write_to_file (fun r => Except.ok (joinRow r)) "d1" "t1" [⟨"fastly.py", 50⟩]
          (fun n => if n = "log.txt" then some "start" else none) "out.csv" ["a"]).1
        "out.csv" ["b"]).1 LOGFILE
      = some ("start" ++ "\n" ++ noticeLine "d1" "t1" [⟨"fastly.py", 50⟩] "out.csv")
    ∧ (write_to_file (fun r => Except.ok (joinRow r)) "d2" "t2" [⟨"fastly.py", 60⟩]
        (write_to_logfile_fs "d3" "t3" [⟨"fastly.py", 70⟩]
          (write_to_file (fun r => Except.ok (joinRow r)) "d1" "t1" [⟨"fastly.py", 50⟩]
            (fun n => if n = "log.txt" then some "start" else none) "out.csv" ["a"]).1
          "other") "out.csv" ["b"]).1 LOGFILE
      = some (("start" ++ "\n" ++ noticeLine "d1" "t1" [⟨"fastly.py", 50⟩] "out.csv" ++ "\n"
            ++ write_to_logfile_line "d3" "t3"
                (extract_stack [⟨"fastly.py", 70⟩] ⟨loggerPath, 32⟩) "other")
          ++ "\n" ++ noticeLine "d2" "t2" [⟨"fastly.py", 60⟩] "out.csv") :=
  ⟨(write_notice_dedup (fun r => Except.ok (joinRow r)) "d1" "t1" "d2" "t2" "d3" "t3"
      [⟨"fastly.py", 50⟩] [⟨"fastly.py", 60⟩] [⟨"fastly.py", 70⟩]
      (fun n => if n = "log.txt" then some "start" else none) "start" "out.csv" "other"
      ["a"] ["b"] "a" "b" rfl (by decide) rfl rfl rfl (by decide) (by decide) (by decide)
      rfl).2.1,
   (write_notice_dedup (fun r => Except.ok (joinRow r)) "d1" "t1" "d2" "t2" "d3" "t3"
      [⟨"fastly.py", 50⟩] [⟨"fastly.py", 60⟩] [⟨"fastly.py", 70⟩]
      (fun n => if n = "log.txt" then some "start" else none) "start" "out.csv" "other"
      ["a"] ["b"] "a" "b" rfl (by decide) rfl rfl rfl (by decide) (by decide) (by decide)
      rfl).2.2.2.2⟩

end FastlyTools
